import Mathlib

/-!
Shallow embedding of the tongue-switch gesture detector
(`src/tongue_switch_2p.py`, with `src/tongue_switch.py` sharing the same
per-slot logic), and verification of the frozen claims about it.

Conventions of the embedding:
* Python wall-clock times and float thresholds are modelled as rationals
  (`ℚ`); every float value appearing in the claims (0.12, 0.06, 0.10) is
  exactly representable in binary floating point, so the boundary
  comparisons transfer.
* Python `list` indexing/assignment with an arbitrary `int` index is
  modelled with explicit negative-index normalisation and `IndexError`.
* `threading.Thread.start/join` follow the documented CPython semantics:
  `start` raises `RuntimeError` when the thread was already started,
  `join` raises `RuntimeError` when it was never started.
* Binary image masks are lists of rows of `Bool`; `cv2.medianBlur`
  (ksize 5, border replicate), `cv2.erode`/`cv2.dilate` (3×3 kernel,
  morphological default border) are modelled pixelwise.  The HSV hue-band
  selection `m1 | m2` of `_tongue_mask` is abstracted by its output mask,
  since it is a pure per-pixel predicate on colour values.
-/

namespace TongueSwitch

/-- Direction labels returned by `_classify_direction` in the source
(strings "UP"/"DOWN"/"LEFT"/"RIGHT"/"CENTER"). -/
inductive Direction where
  | UP
  | DOWN
  | LEFT
  | RIGHT
  | CENTER
deriving DecidableEq, Repr

open Direction

/-- `_classify_direction(cx, cy, mx, my, dead_px)` from
`src/tongue_switch_2p.py` lines 67–74 (identical in `tongue_switch.py`
lines 57–70).  All arguments are Python ints at the call site. -/
def _classify_direction (cx cy mx my dead_px : ℤ) : Direction :=
  let dx := cx - mx
  let dy := cy - my
  if |dx| < dead_px ∧ |dy| < dead_px then CENTER
  else if |dx| ≥ |dy| then (if dx > 0 then RIGHT else LEFT)
  else (if dy > 0 then DOWN else UP)

/-- Direction classification as the spec's §4.3 step 8 words it: CENTER
when both offsets are inside the dead zone, otherwise the axis with the
strictly larger magnitude decides, a tie (equal magnitudes) resolving to
the horizontal axis.  Used only to compare against `_classify_direction`. -/
def classifyDirectionSpec (cx cy mx my dead_px : ℤ) : Direction :=
  let dx := cx - mx
  let dy := cy - my
  if |dx| < dead_px ∧ |dy| < dead_px then CENTER
  else if |dx| > |dy| then (if dx > 0 then RIGHT else LEFT)
  else if |dy| > |dx| then (if dy > 0 then DOWN else UP)
  else (if dx > 0 then RIGHT else LEFT)

/-! ### Per-slot edge state and `consume_rising_edge` -/

/-- The per-slot fields of the facade that `consume_rising_edge` reads and
writes: `_state[i]`, `_prev_state[i]`, `_last_event_time[i]`. -/
structure SlotEdgeState where
  state : Bool
  prev_state : Bool
  last_event_time : ℚ
deriving DecidableEq, Repr

/-- Body of `consume_rising_edge` for one slot
(`src/tongue_switch_2p.py` lines 132–137, `src/tongue_switch.py` lines
118–123): given the slot fields, the current wall-clock time `now` and the
configured `debounce_s`, return the reported edge and the updated fields. -/
def consume_rising_edge_slot (s : SlotEdgeState) (now debounce : ℚ) :
    Bool × SlotEdgeState :=
  if s.state ∧ ¬s.prev_state ∧ now - s.last_event_time > debounce then
    (true, { s with prev_state := true, last_event_time := now })
  else
    (false, { s with prev_state := s.state })

/-! ### Python list indexing and exceptions -/

/-- Exceptions that the modelled Python code can raise. -/
inductive PyErr where
  | indexError
  | runtimeError
deriving DecidableEq, Repr

/-- CPython `list` subscript read `l[i]` for an `int` index: a negative
index is first shifted by `len(l)`; an index still out of `[0, len l)`
raises `IndexError`. -/
def pyGet {α : Type} (l : List α) (i : ℤ) : Except PyErr α :=
  let j : ℤ := if i < 0 then i + l.length else i
  if 0 ≤ j then
    match l[j.toNat]? with
    | some a => .ok a
    | none => .error .indexError
  else
    .error .indexError

/-- CPython `list` subscript assignment `l[i] = a`, with the same index
normalisation and `IndexError` behaviour as `pyGet`. -/
def pySet {α : Type} (l : List α) (i : ℤ) (a : α) : Except PyErr (List α) :=
  let j : ℤ := if i < 0 then i + l.length else i
  if 0 ≤ j ∧ j < l.length then
    .ok (l.set j.toNat a)
  else
    .error .indexError

/-! ### The facade snapshot and its accessors -/

/-- The mutable fields of `MultiTongueSwitch` shared between the worker
and the consumer (`src/tongue_switch_2p.py` lines 98–102).  The preview
image contents are irrelevant to every claim, so a preview is identified
by an opaque tag. -/
structure Snapshot where
  state : List Bool
  prev_state : List Bool
  last_event_time : List ℚ
  direction : List (Option TongueSwitch.Direction)
  preview : Option ℕ
deriving DecidableEq, Repr

/-- Constructor state of the snapshot fields
(`src/tongue_switch_2p.py` lines 98–102): all-false / all-none lists of
length `max_players`, no preview. -/
def initSnapshot (max_players : ℕ) : Snapshot where
  state := List.replicate max_players false
  prev_state := List.replicate max_players false
  last_event_time := List.replicate max_players 0
  direction := List.replicate max_players none
  preview := none

/-- `get_state(i)` (`src/tongue_switch_2p.py` lines 118–121): `False`
when the dependency flag is down, otherwise a read of `_state[i]`. -/
def get_state (enabled : Bool) (snap : Snapshot) (i : ℤ) : Except PyErr Bool :=
  if ¬enabled then .ok false
  else pyGet snap.state i

/-- `get_direction(i)` (`src/tongue_switch_2p.py` lines 123–126). -/
def get_direction (enabled : Bool) (snap : Snapshot) (i : ℤ) :
    Except PyErr (Option TongueSwitch.Direction) :=
  if ¬enabled then .ok none
  else pyGet snap.direction i

/-- `get_preview_rgb()` (`src/tongue_switch_2p.py` lines 139–142). -/
def get_preview_rgb (enabled : Bool) (snap : Snapshot) : Option ℕ :=
  if ¬enabled then none
  else snap.preview

/-- `consume_rising_edge(i)` on the full facade state
(`src/tongue_switch_2p.py` lines 128–137): reads `_state[i]`,
`_prev_state[i]`, `_last_event_time[i]`, then either reports an edge and
writes `_prev_state[i] = True; _last_event_time[i] = now`, or writes
`_prev_state[i] = _state[i]`.  The reads happen before any write, so on
`IndexError` the snapshot is unchanged. -/
def consume_rising_edge (enabled : Bool) (snap : Snapshot) (i : ℤ)
    (now debounce : ℚ) : Except PyErr (Bool × Snapshot) :=
  if ¬enabled then .ok (false, snap)
  else do
    let s ← pyGet snap.state i
    let p ← pyGet snap.prev_state i
    let t ← pyGet snap.last_event_time i
    if s ∧ ¬p ∧ now - t > debounce then
      let prev' ← pySet snap.prev_state i true
      let last' ← pySet snap.last_event_time i now
      .ok (true, { snap with prev_state := prev', last_event_time := last' })
    else
      let prev' ← pySet snap.prev_state i s
      .ok (false, { snap with prev_state := prev' })

/-! ### The worker's per-frame publish -/

/-- One entry of the worker's per-frame `faces` list
(`src/tongue_switch_2p.py` line 217): the horizontal mouth-box centre
`mx`, the presence flag `tongue` and the classified `direction`. -/
structure FaceData where
  mx : ℤ
  tongue : Bool
  direction : Option TongueSwitch.Direction
deriving DecidableEq, Repr

/-- `faces.sort(key=lambda d: d["mx"])` (`src/tongue_switch_2p.py` line
219): a stable sort by ascending `mx`. -/
def sortFaces (faces : List FaceData) : List FaceData :=
  faces.mergeSort (fun a b => a.mx ≤ b.mx)

/-- The slot-update loop of the publish step
(`src/tongue_switch_2p.py` lines 221–227): for each `i < max_players`, a
slot with a bound face receives that face's presence and direction, a
slot without one is forced to `False` / `None`. -/
def publishSlots (sorted : List FaceData) (max_players : ℕ)
    (st : List Bool) (dir : List (Option TongueSwitch.Direction)) :
    List Bool × List (Option TongueSwitch.Direction) :=
  (List.range max_players).foldl
    (fun p i =>
      match sorted[i]? with
      | some f => (p.1.set i f.tongue, p.2.set i f.direction)
      | none => (p.1.set i false, p.2.set i none))
    (st, dir)

/-- The whole critical section of the worker's per-frame publish
(`src/tongue_switch_2p.py` lines 219–229): sort the faces, update the
slots, store the new preview.  `_prev_state` and `_last_event_time` are
not touched. -/
def publishFrame (snap : Snapshot) (faces : List FaceData)
    (max_players : ℕ) (previewTag : ℕ) : Snapshot :=
  let sorted := sortFaces faces
  let p := publishSlots sorted max_players snap.state snap.direction
  { snap with state := p.1, direction := p.2, preview := some previewTag }

/-! ### Facade lifecycle (`start` / `stop`) -/

/-- The lifecycle-relevant state of a `MultiTongueSwitch` instance:
the dependency flag `_enabled` (line 87), whether `_thread` has been
started, and whether `_stop` has been set. -/
structure Lifecycle where
  enabled : Bool
  threadStarted : Bool
  stopSet : Bool
deriving DecidableEq, Repr

/-- `start()` (`src/tongue_switch_2p.py` lines 109–111): when enabled it
calls `threading.Thread.start()`, which raises `RuntimeError` if the
thread was already started. -/
def startF (f : Lifecycle) : Except PyErr Lifecycle :=
  if ¬f.enabled then .ok f
  else if f.threadStarted then .error .runtimeError
  else .ok { f with threadStarted := true }

/-- `stop()` (`src/tongue_switch_2p.py` lines 113–116): when enabled it
sets `_stop` and calls `threading.Thread.join(timeout=1.0)`, which raises
`RuntimeError` if the thread was never started (and returns normally on
an already-finished or already-joined thread). -/
def stopF (f : Lifecycle) : Except PyErr Lifecycle :=
  if ¬f.enabled then .ok f
  else if ¬f.threadStarted then .error .runtimeError
  else .ok { f with stopSet := true }

/-- A freshly constructed facade: `_enabled = TONGUE_DEPS_OK`, thread not
yet started, stop event clear. -/
def initLifecycle (deps_ok : Bool) : Lifecycle where
  enabled := deps_ok
  threadStarted := false
  stopSet := false

/-! ### Binary image masks and the segmentation pipeline

A single-channel 0/255 image is modelled as a list of rows of `Bool`
(`true` = 255).  The cv2 primitives used by `_tongue_mask` are modelled
pixelwise with their documented border conventions: `medianBlur` with
ksize 5 replicates the border, `erode`/`dilate` (3×3 all-ones kernel, one
iteration) pad with the morphological neutral element (`true` for
erosion, `false` for dilation). -/

/-- A binary mask: rows of boolean pixels. -/
abbrev Mask := List (List Bool)

/-- Number of rows. -/
def maskH (m : Mask) : ℕ := m.length

/-- Number of columns (of the first row; masks in use are rectangular). -/
def maskW (m : Mask) : ℕ := (m.headD []).length

/-- Pixel read with coordinates clamped to the image
(`cv2.BORDER_REPLICATE`, the border mode of `cv2.medianBlur`). -/
def getClamp (m : Mask) (r c : ℤ) : Bool :=
  let rr := (min (max r 0) (maskH m - 1 : ℤ)).toNat
  let cc := (min (max c 0) (maskW m - 1 : ℤ)).toNat
  ((m.getD rr []).getD cc false)

/-- Pixel read returning `ext` outside the image (morphological border
padding). -/
def getExt (m : Mask) (r c : ℤ) (ext : Bool) : Bool :=
  if 0 ≤ r ∧ r < (maskH m : ℤ) ∧ 0 ≤ c ∧ c < (maskW m : ℤ) then
    ((m.getD r.toNat []).getD c.toNat false)
  else ext

/-- Kernel offsets −2…2. -/
def off2 : List ℤ := [-2, -1, 0, 1, 2]

/-- Kernel offsets −1…1. -/
def off1 : List ℤ := [-1, 0, 1]

/-- Build an `h × w` mask from a pixel predicate. -/
def mapGrid (h w : ℕ) (f : ℕ → ℕ → Bool) : Mask :=
  (List.range h).map fun r => (List.range w).map fun c => f r c

/-- `cv2.medianBlur(m, 5)` on a 0/255 image: a pixel is set iff at least
13 of the 25 pixels in its 5×5 replicated-border window are set. -/
def medianBlur5 (m : Mask) : Mask :=
  mapGrid (maskH m) (maskW m) fun r c =>
    13 ≤ (off2.map fun dr =>
      off2.countP fun dc => getClamp m (r + dr) (c + dc)).sum

/-- `cv2.erode` with a 3×3 all-ones kernel, one iteration. -/
def erode3 (m : Mask) : Mask :=
  mapGrid (maskH m) (maskW m) fun r c =>
    off1.all fun dr => off1.all fun dc => getExt m (r + dr) (c + dc) true

/-- `cv2.dilate` with a 3×3 all-ones kernel, one iteration. -/
def dilate3 (m : Mask) : Mask :=
  mapGrid (maskH m) (maskW m) fun r c =>
    off1.any fun dr => off1.any fun dc => getExt m (r + dr) (c + dc) false

/-- `cv2.bitwise_and` of two equal-sized masks. -/
def maskAnd (a b : Mask) : Mask :=
  mapGrid (maskH b) (maskW b) fun r c =>
    getExt a r c false && getExt b r c false

/-- Number of set pixels; `int(m.sum() // 255)` in the source. -/
def countMask (m : Mask) : ℕ :=
  (m.map (List.countP id)).sum

/-- `m10` of `cv2.moments(m, binaryImage=True)`: the sum of the column
coordinates of the set pixels. -/
def maskM10 (m : Mask) : ℕ :=
  (m.map fun row =>
    ((List.range row.length).filter fun c => row.getD c false).sum).sum

/-- `m01` of `cv2.moments(m, binaryImage=True)`: the sum of the row
coordinates of the set pixels.  (`m00` is `countMask`.) -/
def maskM01 (m : Mask) : ℕ :=
  ((List.range m.length).map fun r =>
    (m.getD r []).countP id * r).sum

/-- `_tongue_mask(bgr_roi, mouth_mask)` (`src/tongue_switch_2p.py` lines
55–65).  The HSV conversion and the two `cv2.inRange` hue bands are a
pure per-pixel predicate on the colour image; the embedding takes their
combined output `m1 | m2` as the input mask `colorSel` (of the same size
as `mouth`).  An empty ROI or mouth mask short-circuits to an all-zero
mask of the mouth mask's shape. -/
def _tongue_mask (colorSel mouth : Mask) : Mask :=
  if maskH mouth * maskW mouth = 0 then
    mapGrid (maskH mouth) (maskW mouth) fun _ _ => false
  else
    dilate3 (erode3 (medianBlur5 (maskAnd colorSel mouth)))

/-- The presence fraction of `MultiTongueSwitch._run`
(`src/tongue_switch_2p.py` lines 195–198):
`frac = tongue_px / max(1, mouth_px)`. -/
def frameFraction (colorSel mouth : Mask) : ℚ :=
  (countMask (_tongue_mask colorSel mouth) : ℚ) /
    ((max 1 (countMask mouth) : ℕ) : ℚ)

/-! ### Per-subject gesture reading -/

/-- Python `int()` applied to a (here rational-modelled) float:
truncation toward zero. -/
def pyInt (q : ℚ) : ℤ :=
  if 0 ≤ q then ⌊q⌋ else -⌊-q⌋

/-- Constructor configuration relevant to segmentation
(`src/tongue_switch_2p.py` lines 77–96). -/
structure SegConfig where
  min_open_px : ℕ
  frac_threshold : ℚ
  dir_dead_frac : ℚ
deriving Repr

/-- The default configuration values of the constructor. -/
def defaultSegConfig : SegConfig where
  min_open_px := 8
  frac_threshold := 6 / 100
  dir_dead_frac := 10 / 100

/-- The `GestureReading` of the spec's data model: what the worker
derives per subject per frame. -/
structure GestureReading where
  present : Bool
  direction : Option TongueSwitch.Direction
  openness : ℕ
  fraction : ℚ
deriving Repr

/-- The per-subject body of the worker loop
(`src/tongue_switch_2p.py` lines 194–208; same computation in
`src/tongue_switch.py` lines 183–201), on the success path of the inner
`try`.  Inputs: the padded, clamped mouth box `(x0,y0)–(x1,y1)`, the
mouth-openness pixel measure `open_px` (an absolute difference, hence a
natural), the hue-band selection output `colorSel` and the filled mouth
polygon mask `mouth`.  `cv2.moments(·, binaryImage=True)` has
`m00 = countMask`, `m10 = maskM10`, `m01 = maskM01`; `int(m10/m00)` is a
quotient of naturals truncated toward zero, i.e. natural division. -/
def computeReading (cfg : SegConfig) (x0 y0 x1 y1 : ℤ) (open_px : ℕ)
    (colorSel mouth : Mask) : GestureReading :=
  let tmask := _tongue_mask colorSel mouth
  let tongue_px := countMask tmask
  let mouth_px := countMask mouth
  let frac : ℚ := (tongue_px : ℚ) / ((max 1 mouth_px : ℕ) : ℚ)
  let present := decide (open_px ≥ cfg.min_open_px) &&
    decide (frac ≥ cfg.frac_threshold)
  let mx := (x0 + x1).fdiv 2
  let my := (y0 + y1).fdiv 2
  let direction :=
    if present ∧ 0 < tongue_px then
      if 0 < countMask tmask then
        let cx := x0 + (maskM10 tmask / tongue_px : ℕ)
        let cy := y0 + (maskM01 tmask / tongue_px : ℕ)
        let dead_px := pyInt (cfg.dir_dead_frac * (max 1 (max (x1 - x0) (y1 - y0)) : ℤ))
        some (TongueSwitch._classify_direction cx cy mx my dead_px)
      else none
    else none
  { present := present, direction := direction,
    openness := open_px, fraction := frac }

/-! ### Consumer-side call traces (for the degraded scenarios) -/

/-- One consumer `consume_rising_edge` call: slot index, wall-clock time,
configured debounce.  On an `IndexError` the snapshot is unchanged (all
reads precede all writes in the source). -/
def consumeStep (enabled : Bool) (snap : Snapshot) (c : ℤ × ℚ × ℚ) : Snapshot :=
  match consume_rising_edge enabled snap c.1 c.2.1 c.2.2 with
  | .ok (_, s') => s'
  | .error _ => snap

/-- The snapshot after a sequence of consumer `consume_rising_edge`
calls, starting from a snapshot the worker never writes to (the
camera-failure and missing-dependency scenarios, where `_run` returns
before its loop: `src/tongue_switch_2p.py` lines 146–150). -/
def runConsumes (enabled : Bool) (snap : Snapshot)
    (calls : List (ℤ × ℚ × ℚ)) : Snapshot :=
  calls.foldl (consumeStep enabled) snap

/-- The degraded-mode invariant: per-slot published state all false,
directions all none, no preview, edge-tracking lists of the constructor
length. -/
def DegradedInv (max_players : ℕ) (S : Snapshot) : Prop :=
  S.state = List.replicate max_players false
  ∧ S.direction = List.replicate max_players none
  ∧ S.preview = none
  ∧ S.prev_state.length = max_players
  ∧ S.last_event_time.length = max_players

/-! ### Concrete masks for the fraction-bound analysis -/

/-- A U-shaped mouth-interior mask on a 20 × 12 grid: two 3-wide vertical
bars (columns 2–4 and 7–9, rows 2–17) joined by a bridge (rows 16–17,
columns 5–6) — the rasterisation of an 8-vertex simple polygon, as
`cv2.fillPoly` of an inner-lip ring can produce for a strongly concave
mouth shape.  100 set pixels. -/
def mouthCex : Mask :=
  mapGrid 20 12 fun r c =>
    decide ((2 ≤ r ∧ r ≤ 17 ∧ (c = 2 ∨ c = 3 ∨ c = 4 ∨ c = 7 ∨ c = 8 ∨ c = 9)) ∨
      ((r = 16 ∨ r = 17) ∧ (c = 5 ∨ c = 6)))

/-- A hue-band selection mask that is set everywhere (every ROI pixel is
gesture-coloured). -/
def colorSelCex : Mask :=
  mapGrid 20 12 fun _ _ => true

/-! ## Helper lemmas -/

/-- The normalised index a Python subscript uses. -/
def pyNorm (len : ℕ) (i : ℤ) : ℤ :=
  if i < 0 then i + len else i

/-- `Except` bind on a success reduces to the continuation. -/
theorem exceptBindOk {ε α β : Type} (a : α) (f : α → Except ε β) :
    (Except.ok a >>= f : Except ε β) = f a := rfl

/-- `Except` bind on an error propagates the error. -/
theorem exceptBindErr {ε α β : Type} (e : ε) (f : α → Except ε β) :
    (Except.error e >>= f : Except ε β) = Except.error e := rfl

theorem pyNorm_bounds (len : ℕ) (i : ℤ) (h1 : -(len : ℤ) ≤ i)
    (h2 : i < len) : 0 ≤ pyNorm len i ∧ pyNorm len i < len := by
  simp only [pyNorm]
  split_ifs <;> omega

theorem pyGet_valid {α : Type} (l : List α) (i : ℤ)
    (h1 : -(l.length : ℤ) ≤ i) (h2 : i < l.length) :
    ∃ a, pyGet l i = .ok a ∧ a ∈ l := by
  simp only [pyGet]
  set j : ℤ := if i < 0 then i + (l.length : ℤ) else i with hj
  have hj0 : 0 ≤ j := by rw [hj]; split_ifs <;> omega
  have hjl : j.toNat < l.length := by rw [hj]; split_ifs <;> omega
  rw [if_pos hj0, List.getElem?_eq_getElem hjl]
  exact ⟨_, rfl, List.getElem_mem hjl⟩

theorem pyGet_mem {α : Type} {l : List α} {i : ℤ} {a : α}
    (h : pyGet l i = .ok a) : a ∈ l := by
  simp only [pyGet] at h
  by_cases hj0 : 0 ≤ (if i < 0 then i + (l.length : ℤ) else i)
  · rw [if_pos hj0] at h
    rcases hx : l[(if i < 0 then i + (l.length : ℤ) else i).toNat]? with _ | b
    · rw [hx] at h
      cases h
    · rw [hx] at h
      cases h
      exact List.getElem?_mem hx
  · rw [if_neg hj0] at h
    cases h

theorem pySet_valid {α : Type} (l : List α) (i : ℤ) (a : α)
    (h1 : -(l.length : ℤ) ≤ i) (h2 : i < l.length) :
    pySet l i a = .ok (l.set (pyNorm l.length i).toNat a) := by
  have hj := pyNorm_bounds l.length i h1 h2
  simp only [pySet, pyNorm] at hj ⊢
  rw [if_pos hj]

theorem pySet_ok_shape {α : Type} {l l' : List α} {i : ℤ} {a : α}
    (h : pySet l i a = .ok l') :
    l' = l.set (pyNorm l.length i).toNat a := by
  simp only [pySet, pyNorm] at h ⊢
  by_cases hc : 0 ≤ (if i < 0 then i + (l.length : ℤ) else i) ∧
      (if i < 0 then i + (l.length : ℤ) else i) < (l.length : ℤ)
  · rw [if_pos hc] at h
    cases h
    rfl
  · rw [if_neg hc] at h
    cases h

/-- Setting an index leaves every other position unchanged. -/
theorem set_getElem?_ne {α : Type} (l : List α) (k : ℕ) (a : α)
    (j : ℕ) (hj : j ≠ k) : (l.set k a)[j]? = l[j]? := by
  rw [List.getElem?_set, if_neg (fun h => hj h.symm)]

theorem pySet_ok_valid {α : Type} {l l' : List α} {i : ℤ} {a : α}
    (h : pySet l i a = .ok l') :
    0 ≤ pyNorm l.length i ∧ pyNorm l.length i < l.length := by
  simp only [pySet, pyNorm] at h ⊢
  by_cases hc : 0 ≤ (if i < 0 then i + (l.length : ℤ) else i) ∧
      (if i < 0 then i + (l.length : ℤ) else i) < (l.length : ℤ)
  · exact hc
  · rw [if_neg hc] at h
    cases h

/-! Lemmas about the publish loop. -/

theorem publishSlots_zero (s : List FaceData) (st : List Bool)
    (dir : List (Option TongueSwitch.Direction)) :
    publishSlots s 0 st dir = (st, dir) := rfl

theorem publishSlots_succ (s : List FaceData) (n : ℕ) (st : List Bool)
    (dir : List (Option TongueSwitch.Direction)) :
    publishSlots s (n + 1) st dir =
      (match s[n]? with
       | some f => ((publishSlots s n st dir).1.set n f.tongue,
                    (publishSlots s n st dir).2.set n f.direction)
       | none => ((publishSlots s n st dir).1.set n false,
                  (publishSlots s n st dir).2.set n none)) := by
  simp only [publishSlots, List.range_succ, List.foldl_append, List.foldl_cons,
    List.foldl_nil]

theorem publishSlots_length (s : List FaceData) (n : ℕ) (st : List Bool)
    (dir : List (Option TongueSwitch.Direction)) :
    (publishSlots s n st dir).1.length = st.length ∧
    (publishSlots s n st dir).2.length = dir.length := by
  induction n with
  | zero => exact ⟨rfl, rfl⟩
  | succ n ih =>
    rw [publishSlots_succ]
    rcases h : s[n]? with _ | f <;> simp [h, ih.1, ih.2]

theorem publishSlots_fst_getElem? (s : List FaceData) (n : ℕ)
    (st : List Bool) (dir : List (Option TongueSwitch.Direction)) (i : ℕ) :
    (publishSlots s n st dir).1[i]? =
      if i < n ∧ i < st.length then some ((s[i]?.map FaceData.tongue).getD false)
      else st[i]? := by
  induction n with
  | zero =>
    simp [publishSlots_zero]
  | succ n ih =>
    rw [publishSlots_succ]
    have hlen : (publishSlots s n st dir).1.length = st.length :=
      (publishSlots_length s n st dir).1
    by_cases hi : i = n
    · subst hi
      rcases h : s[i]? with _ | f <;>
      · simp only [h, List.getElem?_set, hlen, if_pos rfl, Option.map_none,
          Option.map_some, Option.getD_none, Option.getD_some]
        by_cases hlt : i < st.length
        · simp [hlt, Nat.lt_succ_self]
        · simp [hlt, List.getElem?_eq_none (Nat.le_of_not_lt hlt)]
    · have hne : ∀ (β : Type) (l : List β) (a : β),
          (l.set n a)[i]? = l[i]? := fun β l a => set_getElem?_ne l n a i hi
      rcases h : s[n]? with _ | f <;>
        simp only [h, hne, ih] <;>
        (congr 1; simp only [eq_iff_iff]; omega)

theorem publishSlots_snd_getElem? (s : List FaceData) (n : ℕ)
    (st : List Bool) (dir : List (Option TongueSwitch.Direction)) (i : ℕ) :
    (publishSlots s n st dir).2[i]? =
      if i < n ∧ i < dir.length then some ((s[i]?.map FaceData.direction).getD none)
      else dir[i]? := by
  induction n with
  | zero =>
    simp [publishSlots_zero]
  | succ n ih =>
    rw [publishSlots_succ]
    have hlen : (publishSlots s n st dir).2.length = dir.length :=
      (publishSlots_length s n st dir).2
    by_cases hi : i = n
    · subst hi
      rcases h : s[i]? with _ | f <;>
      · simp only [h, List.getElem?_set, hlen, if_pos rfl, Option.map_none,
          Option.map_some, Option.getD_none, Option.getD_some]
        by_cases hlt : i < dir.length
        · simp [hlt, Nat.lt_succ_self]
        · simp [hlt, List.getElem?_eq_none (Nat.le_of_not_lt hlt)]
    · have hne : ∀ (β : Type) (l : List β) (a : β),
          (l.set n a)[i]? = l[i]? := fun β l a => set_getElem?_ne l n a i hi
      rcases h : s[n]? with _ | f <;>
        simp only [h, hne, ih] <;>
        (congr 1; simp only [eq_iff_iff]; omega)

/-! ## Claim C7 -/

/-- C7: for every centroid, mouth-box centre and dead zone, direction
classification returns CENTER when both axis offsets are strictly inside
the dead zone; otherwise the axis with the larger absolute offset decides
the label (RIGHT for positive horizontal offset else LEFT, DOWN for
positive vertical offset else UP), and equal magnitudes resolve to the
horizontal axis.  Stated as: the source's `_classify_direction` computes
exactly the classification described by the spec's words. -/
theorem classify_direction_matches_spec :
    ∀ cx cy mx my dead_px : ℤ,
      TongueSwitch._classify_direction cx cy mx my dead_px =
        TongueSwitch.classifyDirectionSpec cx cy mx my dead_px := by
  intro cx cy mx my d
  simp only [TongueSwitch._classify_direction, TongueSwitch.classifyDirectionSpec,
    Int.abs_eq_natAbs]
  split_ifs <;> first | rfl | (exfalso; omega)

/-! ## Claim C1 -/

/-- C1 counterexample: with the slot on, the edge flag clear and exactly
`debounce_s` (= 0.12) seconds elapsed since the last reported edge, "at
least `debounce_s` has elapsed" holds, yet `consume_rising_edge` returns
`false` — the source compares with strict `>`, not `≥`. -/
theorem consume_rising_edge_boundary_cex :
    ((⟨true, false, 0⟩ : TongueSwitch.SlotEdgeState).state = true ∧
      (⟨true, false, 0⟩ : TongueSwitch.SlotEdgeState).prev_state = false ∧
      (12 / 100 : ℚ) - (⟨true, false, 0⟩ : TongueSwitch.SlotEdgeState).last_event_time ≥
        12 / 100) ∧
    (TongueSwitch.consume_rising_edge_slot ⟨true, false, 0⟩ (12 / 100) (12 / 100)).1 =
      false := by
  norm_num [TongueSwitch.consume_rising_edge_slot]

/-- C1 (amended): `consume_rising_edge` on a slot returns true iff the
slot's current state is true, its `previous_for_edge` flag is false, and
strictly more than `debounce_s` seconds have elapsed since the last
reported edge; on a true return it sets `previous_for_edge` to true and
records the call time as `last_edge_time`; after every call
`previous_for_edge` equals the just-observed current state, the current
state itself is unchanged, and on a false return `last_edge_time` is
unchanged. -/
theorem consume_rising_edge_slot_spec (s : TongueSwitch.SlotEdgeState) (now db : ℚ) :
    ((TongueSwitch.consume_rising_edge_slot s now db).1 = true ↔
      s.state = true ∧ s.prev_state = false ∧ db < now - s.last_event_time)
    ∧ ((TongueSwitch.consume_rising_edge_slot s now db).1 = true →
        (TongueSwitch.consume_rising_edge_slot s now db).2.prev_state = true ∧
        (TongueSwitch.consume_rising_edge_slot s now db).2.last_event_time = now)
    ∧ (TongueSwitch.consume_rising_edge_slot s now db).2.prev_state = s.state
    ∧ (TongueSwitch.consume_rising_edge_slot s now db).2.state = s.state
    ∧ ((TongueSwitch.consume_rising_edge_slot s now db).1 = false →
        (TongueSwitch.consume_rising_edge_slot s now db).2.last_event_time =
          s.last_event_time) := by
  unfold TongueSwitch.consume_rising_edge_slot
  split_ifs with h
  · obtain ⟨h1, h2, h3⟩ := h
    refine ⟨?_, fun _ => ⟨rfl, rfl⟩, ?_, rfl, ?_⟩
    · simp only [true_iff]
      exact ⟨h1, by simpa using h2, h3⟩
    · simpa using h1.symm
    · intro hF
      cases hF
  · refine ⟨?_, ?_, rfl, rfl, fun _ => rfl⟩
    · simp only [Bool.false_eq_true, false_iff]
      rintro ⟨ha, hb, hc⟩
      exact h ⟨ha, by simp [hb], hc⟩
    · intro hF
      cases hF

/-- C1 witness: a concrete call one second after the last edge reports
the edge and updates the edge-tracking fields. -/
theorem consume_rising_edge_slot_spec_witness :
    (TongueSwitch.consume_rising_edge_slot ⟨true, false, 0⟩ 1 (12 / 100)).1 = true
    ∧ (TongueSwitch.consume_rising_edge_slot ⟨true, false, 0⟩ 1 (12 / 100)).2.prev_state =
        true
    ∧ (TongueSwitch.consume_rising_edge_slot ⟨true, false, 0⟩ 1 (12 / 100)).2.last_event_time =
        1 := by
  have h := consume_rising_edge_slot_spec ⟨true, false, 0⟩ 1 (12 / 100)
  have h1 : (TongueSwitch.consume_rising_edge_slot ⟨true, false, 0⟩ 1 (12 / 100)).1 = true :=
    h.1.mpr ⟨rfl, rfl, by norm_num⟩
  exact ⟨h1, (h.2.1 h1).1, (h.2.1 h1).2⟩

/-! ## Claim C2 -/

/-- C2 counterexample: on a facade with dependencies available, a second
`start()` after a successful one raises `RuntimeError` into the caller
(CPython forbids restarting a `threading.Thread`), so `start` is not
idempotent. -/
theorem start_twice_raises_cex :
    (TongueSwitch.startF (TongueSwitch.initLifecycle true)).bind TongueSwitch.startF =
      .error .runtimeError := by
  rfl

/-- C2 (amended): `start()` is a no-op (hence idempotent) when the
dependencies are unavailable, as is `stop()`; after a successful start, a
second `start()` raises `RuntimeError` rather than being idempotent,
while `stop()` may be called repeatedly: the first call sets the stop
event and later calls leave the state unchanged without raising. -/
theorem start_stop_lifecycle_spec (f : TongueSwitch.Lifecycle) :
    (f.enabled = false →
      TongueSwitch.startF f = .ok f ∧ TongueSwitch.stopF f = .ok f)
    ∧ (f.enabled = true → f.threadStarted = false →
        TongueSwitch.startF f = .ok { f with threadStarted := true }
        ∧ TongueSwitch.startF { f with threadStarted := true } = .error .runtimeError
        ∧ TongueSwitch.stopF { f with threadStarted := true } =
            .ok { f with threadStarted := true, stopSet := true }
        ∧ TongueSwitch.stopF { f with threadStarted := true, stopSet := true } =
            .ok { f with threadStarted := true, stopSet := true }) := by
  unfold TongueSwitch.startF TongueSwitch.stopF
  constructor
  · intro h
    simp [h]
  · intro h1 h2
    simp [h1, h2]

/-- C2 witness: the concrete enabled, not-yet-started facade. -/
theorem start_stop_lifecycle_spec_witness :
    TongueSwitch.startF ⟨true, false, false⟩ = .ok ⟨true, true, false⟩
    ∧ TongueSwitch.startF ⟨true, true, false⟩ = .error .runtimeError
    ∧ TongueSwitch.stopF ⟨true, true, false⟩ = .ok ⟨true, true, true⟩
    ∧ TongueSwitch.stopF ⟨true, true, true⟩ = .ok ⟨true, true, true⟩ := by
  have h := (start_stop_lifecycle_spec ⟨true, false, false⟩).2 rfl rfl
  exact ⟨h.1, h.2.1, h.2.2.1, h.2.2.2⟩

/-! ## Claim C3 -/

/-- C3 counterexample: with dependencies available and the default two
player slots, slot argument `2` makes all three polling accessors raise
`IndexError` into the consumer — they are not total over every integer
slot argument. -/
theorem accessors_index_error_cex :
    TongueSwitch.get_state true (TongueSwitch.initSnapshot 2) 2 = .error .indexError
    ∧ TongueSwitch.get_direction true (TongueSwitch.initSnapshot 2) 2 =
        .error .indexError
    ∧ TongueSwitch.consume_rising_edge true (TongueSwitch.initSnapshot 2) 2 0 (12 / 100) =
        .error .indexError := by
  refine ⟨rfl, rfl, ?_⟩
  rfl

/-- C3 (amended): on every snapshot whose per-slot lists have length
`max_players` (as all snapshots the program builds do), the polling
accessors `get_state`, `get_direction` and `consume_rising_edge` return
normally — a bool, a direction-or-None, and a bool with an updated
snapshot — for every slot argument `i` in the valid CPython index range
`-max_players ≤ i < max_players`; no exception reaches the consumer
there. -/
theorem accessors_total_on_valid_slots (enabled : Bool)
    (snap : TongueSwitch.Snapshot) (max_players : ℕ) (i : ℤ) (now db : ℚ)
    (hs : snap.state.length = max_players)
    (hp : snap.prev_state.length = max_players)
    (hl : snap.last_event_time.length = max_players)
    (hd : snap.direction.length = max_players)
    (h1 : -(max_players : ℤ) ≤ i) (h2 : i < max_players) :
    (∃ b, TongueSwitch.get_state enabled snap i = .ok b)
    ∧ (∃ d, TongueSwitch.get_direction enabled snap i = .ok d)
    ∧ (∃ r, TongueSwitch.consume_rising_edge enabled snap i now db = .ok r) := by
  by_cases he : enabled
  · obtain ⟨sv, hsok, -⟩ := TongueSwitch.pyGet_valid snap.state i
      (by rw [hs]; exact h1) (by rw [hs]; exact h2)
    obtain ⟨dv, hdok, -⟩ := TongueSwitch.pyGet_valid snap.direction i
      (by rw [hd]; exact h1) (by rw [hd]; exact h2)
    obtain ⟨pv, hpok, -⟩ := TongueSwitch.pyGet_valid snap.prev_state i
      (by rw [hp]; exact h1) (by rw [hp]; exact h2)
    obtain ⟨tv, htok, -⟩ := TongueSwitch.pyGet_valid snap.last_event_time i
      (by rw [hl]; exact h1) (by rw [hl]; exact h2)
    refine ⟨⟨sv, ?_⟩, ⟨dv, ?_⟩, ?_⟩
    · simp [TongueSwitch.get_state, he, hsok]
    · simp [TongueSwitch.get_direction, he, hdok]
    · simp only [TongueSwitch.consume_rising_edge, he, not_true_eq_false, if_false,
        hsok, hpok, htok, TongueSwitch.exceptBindOk]
      split_ifs with hc
      · rw [TongueSwitch.pySet_valid snap.prev_state i true
            (by rw [hp]; exact h1) (by rw [hp]; exact h2),
          TongueSwitch.exceptBindOk,
          TongueSwitch.pySet_valid snap.last_event_time i now
            (by rw [hl]; exact h1) (by rw [hl]; exact h2),
          TongueSwitch.exceptBindOk]
        exact ⟨_, rfl⟩
      · rw [TongueSwitch.pySet_valid snap.prev_state i sv
            (by rw [hp]; exact h1) (by rw [hp]; exact h2),
          TongueSwitch.exceptBindOk]
        exact ⟨_, rfl⟩
  · simp only [Bool.not_eq_true] at he
    subst he
    exact ⟨⟨false, rfl⟩, ⟨none, rfl⟩, ⟨(false, snap), rfl⟩⟩

/-- C3 witness: the amended totality at a concrete snapshot, the negative
index `-1` (valid in CPython) included via a second instantiation at
slot 0. -/
theorem accessors_total_on_valid_slots_witness :
    ((∃ b, TongueSwitch.get_state true (TongueSwitch.initSnapshot 2) (-1) = .ok b)
      ∧ (∃ d, TongueSwitch.get_direction true (TongueSwitch.initSnapshot 2) (-1) = .ok d)
      ∧ (∃ r, TongueSwitch.consume_rising_edge true (TongueSwitch.initSnapshot 2) (-1) 1
            (12 / 100) = .ok r)) := by
  exact accessors_total_on_valid_slots true (TongueSwitch.initSnapshot 2) 2 (-1) 1
    (12 / 100) rfl rfl rfl rfl (by norm_num) (by norm_num)

/-! ## Claim C5 -/

/-- C5: for every processed frame and every slot `i` with no subject
bound this frame (`i` at or beyond the number of detected subjects), the
publish step forces that slot's state to false and its direction to None,
regardless of the slot's values from the previous frame (the snapshot
`snap` is arbitrary). -/
theorem unbound_slot_reset (snap : TongueSwitch.Snapshot)
    (faces : List TongueSwitch.FaceData) (max_players : ℕ) (pid : ℕ) (i : ℕ)
    (hs : snap.state.length = max_players)
    (hd : snap.direction.length = max_players)
    (hN : faces.length ≤ i) (hi : i < max_players) :
    (TongueSwitch.publishFrame snap faces max_players pid).state[i]? = some false
    ∧ (TongueSwitch.publishFrame snap faces max_players pid).direction[i]? =
        some none := by
  have hsortlen : (TongueSwitch.sortFaces faces).length = faces.length := by
    simp [TongueSwitch.sortFaces]
  have hnone : (TongueSwitch.sortFaces faces)[i]? = none :=
    List.getElem?_eq_none (by omega)
  constructor
  · rw [show (TongueSwitch.publishFrame snap faces max_players pid).state =
        (TongueSwitch.publishSlots (TongueSwitch.sortFaces faces) max_players
          snap.state snap.direction).1 from rfl,
      TongueSwitch.publishSlots_fst_getElem?, if_pos ⟨hi, by omega⟩, hnone]
    rfl
  · rw [show (TongueSwitch.publishFrame snap faces max_players pid).direction =
        (TongueSwitch.publishSlots (TongueSwitch.sortFaces faces) max_players
          snap.state snap.direction).2 from rfl,
      TongueSwitch.publishSlots_snd_getElem?, if_pos ⟨hi, by omega⟩, hnone]
    rfl

/-- C5 witness: a slot that was on with direction UP last frame, with no
face bound this frame, is published as off/None. -/
theorem unbound_slot_reset_witness :
    (TongueSwitch.publishFrame
        ⟨[true, true], [false, false], [0, 0],
          [some TongueSwitch.Direction.UP, some TongueSwitch.Direction.UP], none⟩
        [⟨5, true, some TongueSwitch.Direction.UP⟩] 2 7).state[1]? = some false
    ∧ (TongueSwitch.publishFrame
        ⟨[true, true], [false, false], [0, 0],
          [some TongueSwitch.Direction.UP, some TongueSwitch.Direction.UP], none⟩
        [⟨5, true, some TongueSwitch.Direction.UP⟩] 2 7).direction[1]? = some none := by
  exact unbound_slot_reset _ _ 2 7 1 rfl rfl (by norm_num) (by norm_num)

/-! ## Claim C4 -/

/-- C4: with a positive `frac_threshold` (the program's default is 0.06;
the threshold is constructor configuration), every `GestureReading`
computed for a subject has `direction = None` iff `present = false`; and
for every frame whose per-subject readings satisfy that invariant, every
published slot satisfies it as well after the publish step. -/
theorem direction_none_iff_absent :
    (∀ (cfg : TongueSwitch.SegConfig) (x0 y0 x1 y1 : ℤ) (open_px : ℕ)
        (colorSel mouth : TongueSwitch.Mask),
      0 < cfg.frac_threshold →
        ((TongueSwitch.computeReading cfg x0 y0 x1 y1 open_px colorSel mouth).direction =
            none ↔
          (TongueSwitch.computeReading cfg x0 y0 x1 y1 open_px colorSel mouth).present =
            false))
    ∧ (∀ (snap : TongueSwitch.Snapshot) (faces : List TongueSwitch.FaceData)
        (max_players pid : ℕ) (i : ℕ),
      (∀ f ∈ faces, (f.direction = none ↔ f.tongue = false)) →
      snap.state.length = max_players → snap.direction.length = max_players →
      i < max_players →
        ((TongueSwitch.publishFrame snap faces max_players pid).direction[i]? =
            some none ↔
          (TongueSwitch.publishFrame snap faces max_players pid).state[i]? =
            some false)) := by
  constructor
  · intro cfg x0 y0 x1 y1 open_px colorSel mouth hth
    simp only [TongueSwitch.computeReading]
    set tpx := TongueSwitch.countMask (TongueSwitch._tongue_mask colorSel mouth) with htpx
    set frac : ℚ :=
      ((tpx : ℚ) / ((max 1 (TongueSwitch.countMask mouth) : ℕ) : ℚ)) with hfrac
    have tongue_pos_of_present :
        (decide (open_px ≥ cfg.min_open_px) && decide (frac ≥ cfg.frac_threshold)) = true →
          0 < tpx := by
      intro hp
      have hfr : frac ≥ cfg.frac_threshold :=
        of_decide_eq_true ((Bool.and_eq_true _ _).mp hp).2
      by_contra h0
      have h00 : tpx = 0 := by omega
      have : frac = 0 := by rw [hfrac, h00]; simp
      rw [this] at hfr
      linarith
    split_ifs with hcond hinner
    · simp [hcond.1]
    · exact absurd hcond.2 hinner
    · have hpf : (decide (open_px ≥ cfg.min_open_px) &&
          decide (frac ≥ cfg.frac_threshold)) = false := by
        by_contra hne
        rw [Bool.not_eq_false] at hne
        exact hcond ⟨hne, tongue_pos_of_present hne⟩
      simp [hpf]
  · intro snap faces max_players pid i hfaces hs hd hi
    rw [show (TongueSwitch.publishFrame snap faces max_players pid).state =
        (TongueSwitch.publishSlots (TongueSwitch.sortFaces faces) max_players
          snap.state snap.direction).1 from rfl,
      show (TongueSwitch.publishFrame snap faces max_players pid).direction =
        (TongueSwitch.publishSlots (TongueSwitch.sortFaces faces) max_players
          snap.state snap.direction).2 from rfl,
      TongueSwitch.publishSlots_fst_getElem?, TongueSwitch.publishSlots_snd_getElem?,
      if_pos ⟨hi, by omega⟩, if_pos ⟨hi, by omega⟩]
    rcases hx : (TongueSwitch.sortFaces faces)[i]? with _ | f
    · simp
    · have hmem : f ∈ faces := by
        have h1 : f ∈ TongueSwitch.sortFaces faces := List.getElem?_mem hx
        exact (List.mergeSort_perm faces _).mem_iff.mp h1
      have := hfaces f hmem
      simpa using this

/-- C4 witness: a concrete reading at the default configuration (an
all-red 4×4 mouth interior whose denoised mask is empty, so neither
presence nor a direction is derived), and a concrete one-face publish. -/
theorem direction_none_iff_absent_witness :
    (0 : ℚ) < TongueSwitch.defaultSegConfig.frac_threshold
    ∧ ((TongueSwitch.computeReading TongueSwitch.defaultSegConfig 0 0 8 8 8
          (TongueSwitch.mapGrid 8 8 fun _ _ => true)
          (TongueSwitch.mapGrid 8 8 fun r c =>
            decide (2 ≤ r ∧ r ≤ 5 ∧ 2 ≤ c ∧ c ≤ 5))).direction = none ↔
        (TongueSwitch.computeReading TongueSwitch.defaultSegConfig 0 0 8 8 8
          (TongueSwitch.mapGrid 8 8 fun _ _ => true)
          (TongueSwitch.mapGrid 8 8 fun r c =>
            decide (2 ≤ r ∧ r ≤ 5 ∧ 2 ≤ c ∧ c ≤ 5))).present = false) := by
  refine ⟨by norm_num [TongueSwitch.defaultSegConfig], ?_⟩
  exact direction_none_iff_absent.1 TongueSwitch.defaultSegConfig 0 0 8 8 8 _ _
    (by norm_num [TongueSwitch.defaultSegConfig])

/-! ## Claim C6 -/

theorem sortFaces_pairwise (faces : List TongueSwitch.FaceData) :
    (TongueSwitch.sortFaces faces).Pairwise fun a b => a.mx ≤ b.mx := by
  have h := @List.sorted_mergeSort TongueSwitch.FaceData
    (fun a b : TongueSwitch.FaceData => decide (a.mx ≤ b.mx))
    (fun a b c hab hbc => by
      simp only [decide_eq_true_eq] at *
      omega)
    (fun a b => by
      simp only [Bool.or_eq_true, decide_eq_true_eq]
      omega)
    faces
  exact h.imp fun {a b} hab => by simpa using hab

theorem rank_of_sorted :
    ∀ (S : List TongueSwitch.FaceData),
      S.Pairwise (fun a b => a.mx ≤ b.mx) →
      (S.map TongueSwitch.FaceData.mx).Nodup →
      ∀ i (h : i < S.length),
        S.countP (fun g => decide (g.mx < S[i].mx)) = i := by
  intro S
  induction S with
  | nil =>
    intro _ _ i h
    exact absurd h (by simp)
  | cons f T ih =>
    intro hpw hnd i h
    obtain ⟨hf, hT⟩ := List.pairwise_cons.mp hpw
    rw [List.map_cons, List.nodup_cons] at hnd
    obtain ⟨hnotin, hndT⟩ := hnd
    have hstrict : ∀ g ∈ T, f.mx < g.mx := by
      intro g hg
      refine lt_of_le_of_ne (hf g hg) fun he => hnotin ?_
      rw [he]
      exact List.mem_map_of_mem TongueSwitch.FaceData.mx hg
    cases i with
    | zero =>
      rw [List.countP_cons]
      have h0 : List.countP (fun g => decide (g.mx < f.mx)) T = 0 := by
        rw [List.countP_eq_zero]
        intro g hg
        simp only [decide_eq_true_eq]
        exact lt_asymm (hstrict g hg)
      simp [h0]
    | succ j =>
      have hj : j < T.length := by simpa using h
      rw [List.countP_cons]
      simp only [List.getElem_cons_succ]
      have hfj : f.mx < T[j].mx := hstrict _ (T.getElem_mem hj)
      rw [ih hT hndT j hj, if_pos (by simpa using hfj)]

/-- C6: when the detected subjects have pairwise-distinct horizontal
mouth-box centres and number at most `max_players` (the landmark model is
constructed with `max_num_faces = max_players` and the worker additionally
slices the detection list to `max_players`, so `N ≤ max_players` always
holds and `min(N, max_players) = N`), the publish step binds slot `i`,
for every `i < N`, to the subject with the `i`-th smallest horizontal
centre: there is a face with exactly `i` detected faces strictly to its
left whose presence and direction are published in slot `i`.  Subjects
beyond `max_players` never reach the assignment. -/
theorem slots_sorted_by_center (snap : TongueSwitch.Snapshot)
    (faces : List TongueSwitch.FaceData) (max_players pid : ℕ) (i : ℕ)
    (hnd : (faces.map TongueSwitch.FaceData.mx).Nodup)
    (hcap : faces.length ≤ max_players)
    (hs : snap.state.length = max_players)
    (hd : snap.direction.length = max_players)
    (hi : i < faces.length) :
    ∃ f ∈ faces,
      faces.countP (fun g => decide (g.mx < f.mx)) = i
      ∧ (TongueSwitch.publishFrame snap faces max_players pid).state[i]? =
          some f.tongue
      ∧ (TongueSwitch.publishFrame snap faces max_players pid).direction[i]? =
          some f.direction := by
  have hperm : List.Perm (TongueSwitch.sortFaces faces) faces :=
    List.mergeSort_perm faces _
  have hlen : (TongueSwitch.sortFaces faces).length = faces.length := hperm.length_eq
  have hi' : i < (TongueSwitch.sortFaces faces).length := by omega
  refine ⟨(TongueSwitch.sortFaces faces)[i], ?_, ?_, ?_, ?_⟩
  · exact hperm.mem_iff.mp (List.getElem_mem hi')
  · rw [← hperm.countP_eq]
    exact rank_of_sorted _ (sortFaces_pairwise faces)
      (((hperm.map TongueSwitch.FaceData.mx).nodup_iff).mpr hnd) i hi'
  · rw [show (TongueSwitch.publishFrame snap faces max_players pid).state =
        (TongueSwitch.publishSlots (TongueSwitch.sortFaces faces) max_players
          snap.state snap.direction).1 from rfl,
      TongueSwitch.publishSlots_fst_getElem?, if_pos ⟨by omega, by omega⟩,
      List.getElem?_eq_getElem hi']
    rfl
  · rw [show (TongueSwitch.publishFrame snap faces max_players pid).direction =
        (TongueSwitch.publishSlots (TongueSwitch.sortFaces faces) max_players
          snap.state snap.direction).2 from rfl,
      TongueSwitch.publishSlots_snd_getElem?, if_pos ⟨by omega, by omega⟩,
      List.getElem?_eq_getElem hi']
    rfl

/-- C6 witness: two faces detected right-to-left (centres 400 and 100);
slot 0 receives the leftmost (centre 100, presence true, direction LEFT). -/
theorem slots_sorted_by_center_witness :
    ∃ f ∈ ([⟨400, false, none⟩, ⟨100, true, some TongueSwitch.Direction.LEFT⟩] :
        List TongueSwitch.FaceData),
      ([⟨400, false, none⟩, ⟨100, true, some TongueSwitch.Direction.LEFT⟩] :
          List TongueSwitch.FaceData).countP (fun g => decide (g.mx < f.mx)) = 0
      ∧ (TongueSwitch.publishFrame (TongueSwitch.initSnapshot 2)
          [⟨400, false, none⟩, ⟨100, true, some TongueSwitch.Direction.LEFT⟩]
          2 7).state[0]? = some f.tongue
      ∧ (TongueSwitch.publishFrame (TongueSwitch.initSnapshot 2)
          [⟨400, false, none⟩, ⟨100, true, some TongueSwitch.Direction.LEFT⟩]
          2 7).direction[0]? = some f.direction := by
  exact slots_sorted_by_center (TongueSwitch.initSnapshot 2) _ 2 7 0
    (by decide) (by norm_num) rfl rfl (by norm_num)

/-! ## Claim C9 -/

theorem consumeStep_preserves_degraded (enabled : Bool) (c : ℤ × ℚ × ℚ)
    {max_players : ℕ} {S : TongueSwitch.Snapshot}
    (h : DegradedInv max_players S) :
    DegradedInv max_players (TongueSwitch.consumeStep enabled S c) := by
  obtain ⟨h1, h2, h3, h4, h5⟩ := h
  unfold TongueSwitch.consumeStep TongueSwitch.consume_rising_edge
  by_cases he : enabled
  · simp only [he, not_true_eq_false, if_false]
    rcases hs : TongueSwitch.pyGet S.state c.1 with e | sv
    · rw [TongueSwitch.exceptBindErr]
      exact ⟨h1, h2, h3, h4, h5⟩
    · have hsv : sv = false :=
        List.eq_of_mem_replicate (h1 ▸ TongueSwitch.pyGet_mem hs)
      rw [TongueSwitch.exceptBindOk]
      rcases hp : TongueSwitch.pyGet S.prev_state c.1 with e | pv
      · rw [TongueSwitch.exceptBindErr]
        exact ⟨h1, h2, h3, h4, h5⟩
      · rw [TongueSwitch.exceptBindOk]
        rcases ht : TongueSwitch.pyGet S.last_event_time c.1 with e | tv
        · rw [TongueSwitch.exceptBindErr]
          exact ⟨h1, h2, h3, h4, h5⟩
        · rw [TongueSwitch.exceptBindOk, hsv]
          rw [if_neg (by simp)]
          rcases hw : TongueSwitch.pySet S.prev_state c.1 false with e | prev'
          · rw [TongueSwitch.exceptBindErr]
            exact ⟨h1, h2, h3, h4, h5⟩
          · rw [TongueSwitch.exceptBindOk]
            refine ⟨h1, h2, h3, ?_, h5⟩
            have hsh := TongueSwitch.pySet_ok_shape hw
            show prev'.length = max_players
            rw [hsh]
            simpa using h4
  · simp only [he]
    simp only [Bool.false_eq_true, not_false_eq_true, if_true]
    exact ⟨h1, h2, h3, h4, h5⟩

theorem runConsumes_degraded (enabled : Bool) (max_players : ℕ) :
    ∀ (calls : List (ℤ × ℚ × ℚ)) (S : TongueSwitch.Snapshot),
      DegradedInv max_players S →
      DegradedInv max_players (TongueSwitch.runConsumes enabled S calls) := by
  intro calls
  induction calls with
  | nil => exact fun S h => h
  | cons c cs ih =>
    intro S h
    rw [TongueSwitch.runConsumes, List.foldl_cons]
    exact ih _ (consumeStep_preserves_degraded enabled c h)

/-- C9: when the imaging dependencies are missing (`enabled = false`) or
the worker exits at camera-open failure before ever publishing (so the
snapshot is only ever touched by the consumer's own
`consume_rising_edge` calls, modelled by an arbitrary call trace), then
at every later time and for every valid slot, `get_state` returns false,
`get_direction` returns None, `consume_rising_edge` returns false, and
`get_preview_rgb` returns None; no worker failure reaches the consumer's
control flow. -/
theorem degraded_mode_contained (enabled : Bool) (max_players : ℕ)
    (calls : List (ℤ × ℚ × ℚ)) (i : ℤ) (now db : ℚ)
    (h1 : -(max_players : ℤ) ≤ i) (h2 : i < max_players) :
    TongueSwitch.get_state enabled
        (TongueSwitch.runConsumes enabled (TongueSwitch.initSnapshot max_players) calls)
        i = .ok false
    ∧ TongueSwitch.get_direction enabled
        (TongueSwitch.runConsumes enabled (TongueSwitch.initSnapshot max_players) calls)
        i = .ok none
    ∧ (∃ S', TongueSwitch.consume_rising_edge enabled
        (TongueSwitch.runConsumes enabled (TongueSwitch.initSnapshot max_players) calls)
        i now db = .ok (false, S'))
    ∧ TongueSwitch.get_preview_rgb enabled
        (TongueSwitch.runConsumes enabled (TongueSwitch.initSnapshot max_players) calls)
        = none := by
  obtain ⟨hstate, hdir, hprev, hplen, hllen⟩ :=
    runConsumes_degraded enabled max_players calls (TongueSwitch.initSnapshot max_players)
      ⟨rfl, rfl, rfl, by simp [TongueSwitch.initSnapshot],
        by simp [TongueSwitch.initSnapshot]⟩
  set S := TongueSwitch.runConsumes enabled (TongueSwitch.initSnapshot max_players) calls
  by_cases he : enabled
  · obtain ⟨sv, hsok, hsmem⟩ := TongueSwitch.pyGet_valid S.state i
      (by rw [hstate, List.length_replicate]; exact h1)
      (by rw [hstate, List.length_replicate]; exact h2)
    have hsv : sv = false := List.eq_of_mem_replicate (hstate ▸ hsmem)
    obtain ⟨dv, hdok, hdmem⟩ := TongueSwitch.pyGet_valid S.direction i
      (by rw [hdir, List.length_replicate]; exact h1)
      (by rw [hdir, List.length_replicate]; exact h2)
    have hdv : dv = none := List.eq_of_mem_replicate (hdir ▸ hdmem)
    obtain ⟨pv, hpok, -⟩ := TongueSwitch.pyGet_valid S.prev_state i
      (by rw [hplen]; exact h1) (by rw [hplen]; exact h2)
    obtain ⟨tv, htok, -⟩ := TongueSwitch.pyGet_valid S.last_event_time i
      (by rw [hllen]; exact h1) (by rw [hllen]; exact h2)
    refine ⟨?_, ?_, ?_, ?_⟩
    · rw [TongueSwitch.get_state, if_neg (by simp [he]), hsok, hsv]
    · rw [TongueSwitch.get_direction, if_neg (by simp [he]), hdok, hdv]
    · rw [TongueSwitch.consume_rising_edge, if_neg (by simp [he]), hsok,
        TongueSwitch.exceptBindOk, hpok, TongueSwitch.exceptBindOk, htok,
        TongueSwitch.exceptBindOk, hsv, if_neg (by simp)]
      rw [TongueSwitch.pySet_valid S.prev_state i false
        (by rw [hplen]; exact h1) (by rw [hplen]; exact h2),
        TongueSwitch.exceptBindOk]
      exact ⟨_, rfl⟩
    · rw [TongueSwitch.get_preview_rgb, if_neg (by simp [he]), hprev]
  · simp only [Bool.not_eq_true] at he
    subst he
    exact ⟨rfl, rfl, ⟨_, rfl⟩, rfl⟩

/-- C9 witness: dependencies present but camera failed; after two
consumer polls of slot 0 the accessors still report absent on both
slots. -/
theorem degraded_mode_contained_witness :
    TongueSwitch.get_state true
        (TongueSwitch.runConsumes true (TongueSwitch.initSnapshot 2)
          [(0, 1, 12 / 100), (0, 2, 12 / 100)]) 1 = .ok false
    ∧ TongueSwitch.get_direction true
        (TongueSwitch.runConsumes true (TongueSwitch.initSnapshot 2)
          [(0, 1, 12 / 100), (0, 2, 12 / 100)]) 1 = .ok none
    ∧ (∃ S', TongueSwitch.consume_rising_edge true
        (TongueSwitch.runConsumes true (TongueSwitch.initSnapshot 2)
          [(0, 1, 12 / 100), (0, 2, 12 / 100)]) 1 3 (12 / 100) = .ok (false, S'))
    ∧ TongueSwitch.get_preview_rgb true
        (TongueSwitch.runConsumes true (TongueSwitch.initSnapshot 2)
          [(0, 1, 12 / 100), (0, 2, 12 / 100)]) = none := by
  exact degraded_mode_contained true 2 [(0, 1, 12 / 100), (0, 2, 12 / 100)] 1 3
    (12 / 100) (by norm_num) (by norm_num)

/-! ## Claim C10 -/

/-- C10: a successful `consume_rising_edge(i)` leaves the published
state, direction and preview of every slot unchanged, and changes the
edge-tracking lists `_prev_state` / `_last_event_time` at no position
other than (the normalised) slot `i`; symmetrically, the worker's
per-frame publish never modifies `_prev_state` or `_last_event_time`. -/
theorem consume_publish_frame_effects :
    (∀ (S : TongueSwitch.Snapshot) (i : ℤ) (now db : ℚ) (b : Bool)
        (S' : TongueSwitch.Snapshot),
      TongueSwitch.consume_rising_edge true S i now db = .ok (b, S') →
        S'.state = S.state ∧ S'.direction = S.direction ∧ S'.preview = S.preview
        ∧ (∀ j : ℕ, (j : ℤ) ≠ TongueSwitch.pyNorm S.prev_state.length i →
            S'.prev_state[j]? = S.prev_state[j]?)
        ∧ (∀ j : ℕ, (j : ℤ) ≠ TongueSwitch.pyNorm S.last_event_time.length i →
            S'.last_event_time[j]? = S.last_event_time[j]?))
    ∧ (∀ (snap : TongueSwitch.Snapshot) (faces : List TongueSwitch.FaceData)
        (max_players pid : ℕ),
      (TongueSwitch.publishFrame snap faces max_players pid).prev_state =
          snap.prev_state
        ∧ (TongueSwitch.publishFrame snap faces max_players pid).last_event_time =
          snap.last_event_time) := by
  constructor
  · intro S i now db b S' h
    unfold TongueSwitch.consume_rising_edge at h
    rw [if_neg (by simp)] at h
    rcases hs : TongueSwitch.pyGet S.state i with e | sv
    · rw [hs, TongueSwitch.exceptBindErr] at h
      cases h
    · rw [hs, TongueSwitch.exceptBindOk] at h
      rcases hp : TongueSwitch.pyGet S.prev_state i with e | pv
      · rw [hp, TongueSwitch.exceptBindErr] at h
        cases h
      · rw [hp, TongueSwitch.exceptBindOk] at h
        rcases ht : TongueSwitch.pyGet S.last_event_time i with e | tv
        · rw [ht, TongueSwitch.exceptBindErr] at h
          cases h
        · rw [ht, TongueSwitch.exceptBindOk] at h
          split_ifs at h with hc
          · rcases hw1 : TongueSwitch.pySet S.prev_state i true with e | prev'
            · rw [hw1, TongueSwitch.exceptBindErr] at h
              cases h
            · rw [hw1, TongueSwitch.exceptBindOk] at h
              rcases hw2 : TongueSwitch.pySet S.last_event_time i now with e | last'
              · rw [hw2, TongueSwitch.exceptBindErr] at h
                cases h
              · rw [hw2, TongueSwitch.exceptBindOk] at h
                injection h with h'
                injection h' with hb hS'
                subst hS'
                refine ⟨rfl, rfl, rfl, ?_, ?_⟩
                · intro j hj
                  obtain ⟨hv0, hvl⟩ := TongueSwitch.pySet_ok_valid hw1
                  rw [TongueSwitch.pySet_ok_shape hw1]
                  exact TongueSwitch.set_getElem?_ne _ _ _ j (by omega)
                · intro j hj
                  obtain ⟨hv0, hvl⟩ := TongueSwitch.pySet_ok_valid hw2
                  rw [TongueSwitch.pySet_ok_shape hw2]
                  exact TongueSwitch.set_getElem?_ne _ _ _ j (by omega)
          · rcases hw1 : TongueSwitch.pySet S.prev_state i sv with e | prev'
            · rw [hw1, TongueSwitch.exceptBindErr] at h
              cases h
            · rw [hw1, TongueSwitch.exceptBindOk] at h
              injection h with h'
              injection h' with hb hS'
              subst hS'
              refine ⟨rfl, rfl, rfl, ?_, fun j _ => rfl⟩
              intro j hj
              obtain ⟨hv0, hvl⟩ := TongueSwitch.pySet_ok_valid hw1
              rw [TongueSwitch.pySet_ok_shape hw1]
              exact TongueSwitch.set_getElem?_ne _ _ _ j (by omega)
  · intro snap faces max_players pid
    exact ⟨rfl, rfl⟩

/-- C10 witness: a concrete edge-reporting consume call on slot 0 of a
two-slot snapshot leaves state, direction, preview and the slot-1
edge-tracking fields untouched. -/
theorem consume_publish_frame_effects_witness :
    TongueSwitch.consume_rising_edge true
        ⟨[true, false], [false, false], [0, 0],
          [some TongueSwitch.Direction.UP, none], some 3⟩ 0 1 (12 / 100) =
      .ok (true,
        ⟨[true, false], [true, false], [1, 0],
          [some TongueSwitch.Direction.UP, none], some 3⟩)
    ∧ (⟨[true, false], [true, false], [1, 0],
          [some TongueSwitch.Direction.UP, none], some 3⟩ :
        TongueSwitch.Snapshot).state =
      (⟨[true, false], [false, false], [0, 0],
          [some TongueSwitch.Direction.UP, none], some 3⟩ :
        TongueSwitch.Snapshot).state
    ∧ (⟨[true, false], [true, false], [1, 0],
          [some TongueSwitch.Direction.UP, none], some 3⟩ :
        TongueSwitch.Snapshot).prev_state[1]? =
      (⟨[true, false], [false, false], [0, 0],
          [some TongueSwitch.Direction.UP, none], some 3⟩ :
        TongueSwitch.Snapshot).prev_state[1]? := by
  have hok : TongueSwitch.consume_rising_edge true
      ⟨[true, false], [false, false], [0, 0],
        [some TongueSwitch.Direction.UP, none], some 3⟩ 0 1 (12 / 100) =
    .ok (true,
      ⟨[true, false], [true, false], [1, 0],
        [some TongueSwitch.Direction.UP, none], some 3⟩) := by
    norm_num [TongueSwitch.consume_rising_edge, TongueSwitch.pyGet,
      TongueSwitch.pySet, TongueSwitch.exceptBindOk]
  have h := consume_publish_frame_effects.1 _ 0 1 (12 / 100) true _ hok
  exact ⟨hok, h.1, h.2.2.2.1 1 (by decide)⟩

/-! ## Claim C8 -/

/-- C8 counterexample: on the U-shaped mouth mask `mouthCex` (100
interior pixels) with every ROI pixel gesture-coloured, the median
filter fills the mask's concavity, the opening keeps the filled block,
and the denoised gesture mask has 106 pixels — the published fraction is
106/100 > 1, outside the claimed interval [0,1]. -/
theorem fraction_exceeds_one_cex :
    1 < TongueSwitch.frameFraction TongueSwitch.colorSelCex TongueSwitch.mouthCex := by
  have h1 : TongueSwitch.countMask
      (TongueSwitch._tongue_mask TongueSwitch.colorSelCex TongueSwitch.mouthCex) = 106 := by
    decide
  have h2 : TongueSwitch.countMask TongueSwitch.mouthCex = 100 := by
    decide
  unfold TongueSwitch.frameFraction
  rw [h1, h2]
  norm_num

/-- C8 (amended): for every mouth region, the computed presence fraction
equals (count of gesture-mask pixels after hue-band selection, mouth-mask
intersection and denoising) divided by max(1, count of mouth-interior
pixels), and it is always nonnegative; it is *not* bounded by 1, because
the median filter can turn on pixels outside the mouth mask
(`fraction_exceeds_one_cex`). -/
theorem fraction_formula_nonneg (colorSel mouth : TongueSwitch.Mask) :
    TongueSwitch.frameFraction colorSel mouth =
      (TongueSwitch.countMask (TongueSwitch._tongue_mask colorSel mouth) : ℚ) /
        ((max 1 (TongueSwitch.countMask mouth) : ℕ) : ℚ)
    ∧ 0 ≤ TongueSwitch.frameFraction colorSel mouth := by
  refine ⟨rfl, ?_⟩
  unfold TongueSwitch.frameFraction
  positivity

end TongueSwitch
